import Mathlib

/-!
Shallow embedding of the gba-types crate's bit-field mechanism.

The crate's core is three macros in src/lib.rs:
* bit_get!(val, mask)       = (val as usize) & (mask as usize)
* bit_set!(val, mask, new)  = { let a = val as usize; let b = new as usize;
                                let m = mask as usize; a ^ ((a ^ b) & m) }
* the phantom_field_get! / phantom_field_set! macros, which per field kind
  (bool at a single bit, raw integer over [start,end], newtype'd integer over
  [start,end]) produce the accessors below.  The field MASK constant is
  computed as ((((1_u64 << (end+1)) - 1) >> start) << start) as $inner.

Machine integers are modelled as Nat with an explicit % 2 ^ W at every point
where the source narrows to the backing type ("as $inner", W = 8 or 16).  Bit
operations happen in usize (64-bit); since every field in the crate has
end + 1 <= 16, the u64 / usize intermediates never wrap, so plain Nat
operations model them exactly.
-/

/-- bit_get! from src/lib.rs: value AND mask, in usize. -/
def bit_get (val mask : Nat) : Nat := val &&& mask

/-- bit_set! from src/lib.rs: a XOR ((a XOR b) AND mask), in usize. -/
def bit_set (val mask new : Nat) : Nat := val ^^^ ((val ^^^ new) &&& mask)

/-- The per-field MASK constant: ((((1_u64 << (e+1)) - 1) >> s) << s) as $inner,
where W is the bit width of the backing type $inner. -/
def fieldMask (W s e : Nat) : Nat := ((((1 <<< (e + 1)) - 1) >>> s) <<< s) % 2 ^ W

/-- Boolean field getter: bit_get!(self.0, 1 << bit) != 0. -/
def bool_get (b v : Nat) : Bool := bit_get v (1 <<< b) != 0

/-- Boolean field setter: Self(bit_set!(self.0, 1 << bit, (g as usize) << bit) as $inner). -/
def bool_set (W b v : Nat) (g : Bool) : Nat :=
  bit_set v (1 <<< b) ((if g then 1 else 0) <<< b) % 2 ^ W

/-- Raw integer field getter: (bit_get!(self.0, MASK) >> start) as $inner. -/
def raw_get (W s e v : Nat) : Nat := (bit_get v (fieldMask W s e) >>> s) % 2 ^ W

/-- Raw integer field setter: Self(bit_set!(self.0, MASK, g << start) as $inner).
The shift g << start happens at the backing type $inner, hence the inner % 2 ^ W. -/
def raw_set (W s e v g : Nat) : Nat :=
  bit_set v (fieldMask W s e) ((g <<< s) % 2 ^ W) % 2 ^ W

/-- Newtype'd integer field getter: $nt(bit_get!(self.0, MASK) as $inner).
Note: the extracted bits are NOT shifted right; v is the raw integer inside
the returned const_enum newtype. -/
def nt_get (W s e v : Nat) : Nat := bit_get v (fieldMask W s e) % 2 ^ W

/-- Newtype'd integer field setter: Self(bit_set!(self.0, MASK, g.0) as $inner).
Note: the argument's raw integer g is merged unshifted. -/
def nt_set (W s e v g : Nat) : Nat := bit_set v (fieldMask W s e) g % 2 ^ W

/-- Modelled from the spec: the spec describes the symbolic-field getter as
performing "identical extraction to raw integer", i.e. (backing AND mask)
shifted right by start, the right-aligned result then wrapped in the
Constrained Symbolic Value type.  This definition follows the spec's words
and is compared against nt_get, which is translated from the source. -/
def nt_get_rightAligned_spec (W s e v : Nat) : Nat :=
  (bit_get v (fieldMask W s e) >>> s) % 2 ^ W

/-! Constrained symbolic value types (const_enum!): each is a transparent
newtype over u8/u16 with named constants.  We model a symbolic value by the
Nat raw integer it wraps; equality of symbolic values is structural equality
of the raws, exactly as the derived PartialEq on the newtype. -/

namespace BlendEffect

/-- BlendEffect::NoEffect = 0 << 6. -/
def NoEffect : Nat := 0 <<< 6

/-- BlendEffect::AlphaBlend = 1 << 6. -/
def AlphaBlend : Nat := 1 <<< 6

/-- BlendEffect::BrightnessIncrease = 2 << 6. -/
def BrightnessIncrease : Nat := 2 <<< 6

/-- BlendEffect::BrightnessDecrease = 3 << 6. -/
def BrightnessDecrease : Nat := 3 <<< 6

end BlendEffect

namespace WaveVolume

/-- WaveVolume::_0 = 0 << 5. -/
def vol_0 : Nat := 0 <<< 5

/-- WaveVolume::_100 = 1 << 5. -/
def vol_100 : Nat := 1 <<< 5

/-- WaveVolume::_50 = 2 << 5. -/
def vol_50 : Nat := 2 <<< 5

/-- WaveVolume::_25 = 3 << 5. -/
def vol_25 : Nat := 3 <<< 5

/-- WaveVolume::_75 = 0b100 << 5. -/
def vol_75 : Nat := 0b100 <<< 5

/-- The full catalog of named WaveVolume constants. -/
def constants : List Nat := [vol_0, vol_100, vol_50, vol_25, vol_75]

end WaveVolume

namespace DmaStartTiming

/-- DmaStartTiming::Immediate = 0. -/
def Immediate : Nat := 0

/-- DmaStartTiming::Vblank = 1. -/
def Vblank : Nat := 1

/-- DmaStartTiming::Hblank = 2. -/
def Hblank : Nat := 2

/-- DmaStartTiming::Special = 3. -/
def Special : Nat := 3

end DmaStartTiming

namespace DmaSourceAddressControl

/-- DmaSourceAddressControl::Increment = 0. -/
def Increment : Nat := 0

/-- DmaSourceAddressControl::Decrement = 1. -/
def Decrement : Nat := 1

/-- DmaSourceAddressControl::Fixed = 2. -/
def Fixed : Nat := 2

end DmaSourceAddressControl

/-! Representative register accessors, instantiated from the field tables.
A register value is its backing integer (u16 or u8), modelled as a Nat. -/

/-- ColorBlendControlSetting (u16), field [6-7 => BlendEffect]: getter. -/
def ColorBlendControlSetting.blend_effect (v : Nat) : Nat := nt_get 16 6 7 v

/-- ColorBlendControlSetting (u16), field [6-7 => BlendEffect]: setter. -/
def ColorBlendControlSetting.set_blend_effect (v x : Nat) : Nat := nt_set 16 6 7 v x

/-- WaveVolumeSetting (u8), field [5-7 => WaveVolume]: getter. -/
def WaveVolumeSetting.volume (v : Nat) : Nat := nt_get 8 5 7 v

/-- WaveVolumeSetting (u8), field [5-7 => WaveVolume]: setter. -/
def WaveVolumeSetting.set_volume (v x : Nat) : Nat := nt_set 8 5 7 v x

/-- DmaControlSetting (u16), field [12-13 => DmaStartTiming]: getter. -/
def DmaControlSetting.start_timing (v : Nat) : Nat := nt_get 16 12 13 v

/-- DmaControlSetting (u16), field [12-13 => DmaStartTiming]: setter. -/
def DmaControlSetting.set_start_timing (v x : Nat) : Nat := nt_set 16 12 13 v x

/-- DmaControlSetting (u16), field [7-8 => DmaSourceAddressControl]: getter. -/
def DmaControlSetting.src_addr_control (v : Nat) : Nat := nt_get 16 7 8 v

/-- DmaControlSetting (u16), field [7-8 => DmaSourceAddressControl]: setter. -/
def DmaControlSetting.set_src_addr_control (v x : Nat) : Nat := nt_set 16 7 8 v x

/-! The catalog of every bitstruct_newtype! register type in the crate with
its declared field bit ranges (start, end), inclusive; a boolean field at
bit b is the range (b, b).  Transcribed from src/lib.rs (the dma module in
src/lib.rs, src/dma.rs and src/timer.rs declare the same DmaControlSetting
and TimerControlSetting layouts, listed once). -/

/-- Field ranges of ObjAttr1 (u16): x_coordinate, affine_param,
horizontal_flip, vertical_flip, obj_size. -/
def objAttr1Fields : List (Nat × Nat) := [(0, 8), (9, 13), (12, 12), (13, 13), (14, 15)]

/-- Every register type in the crate with its list of declared field ranges. -/
def registerCatalog : List (String × List (Nat × Nat)) :=
  [ ("DisplayControlSetting", [(0, 2), (4, 4), (5, 5), (6, 6), (7, 7), (8, 8), (9, 9),
      (10, 10), (11, 11), (12, 12), (13, 13), (14, 14), (15, 15)])
  , ("DisplayStatusSetting", [(0, 0), (1, 1), (2, 2), (3, 3), (4, 4), (5, 5), (8, 15)])
  , ("BackgroundControlSetting", [(0, 1), (2, 3), (6, 6), (7, 7), (8, 12), (13, 13), (14, 15)])
  , ("WindowContentSetting", [(0, 0), (1, 1), (2, 2), (3, 3), (4, 4), (5, 5)])
  , ("MosaicSetting", [(0, 3), (4, 7)])
  , ("ColorBlendControlSetting", [(0, 0), (1, 1), (2, 2), (3, 3), (4, 4), (5, 5), (6, 7),
      (8, 8), (9, 9), (10, 10), (11, 11), (12, 12), (13, 13)])
  , ("TextScreenEntry", [(0, 9), (10, 10), (11, 11), (12, 15)])
  , ("Color", [(0, 4), (5, 9), (10, 14)])
  , ("ObjAttr0", [(0, 7), (8, 9), (10, 11), (12, 12), (13, 13), (14, 15)])
  , ("ObjAttr1", objAttr1Fields)
  , ("ObjAttr2", [(0, 9), (10, 11), (12, 15)])
  , ("ToneSweep", [(0, 2), (3, 3), (4, 6)])
  , ("ToneDutyLenEnvelope", [(0, 5), (6, 7), (8, 10), (11, 11), (12, 15)])
  , ("ToneFrequencyControl", [(0, 10), (14, 14), (15, 15)])
  , ("WaveRamSelect", [(5, 5), (6, 6), (7, 7)])
  , ("WaveVolumeSetting", [(5, 7)])
  , ("WaveFrequencyControl", [(0, 10), (14, 14), (15, 15)])
  , ("NoiseLengthEnvelope", [(0, 5), (8, 10), (11, 11), (12, 15)])
  , ("NoiseFrequencyControl", [(0, 2), (3, 3), (4, 7), (14, 14), (15, 15)])
  , ("GeneratedSoundLeftRightMainVolume", [(0, 2), (4, 6)])
  , ("GeneratedSoundLeftRightEnabled", [(0, 0), (1, 1), (2, 2), (3, 3), (4, 4), (5, 5),
      (6, 6), (7, 7)])
  , ("DmaSoundMixVolumeControl", [(0, 1), (2, 2), (3, 3)])
  , ("DmaSoundControlBits", [(0, 0), (1, 1), (2, 2), (3, 3), (4, 4), (5, 5), (6, 6), (7, 7)])
  , ("GeneratedSoundActiveBits", [(0, 0), (1, 1), (2, 2), (3, 3), (7, 7)])
  , ("SoundBiasSetting", [(1, 9), (14, 15)])
  , ("TimerControlSetting", [(0, 1), (2, 2), (6, 6), (7, 7)])
  , ("DmaControlSetting", [(5, 6), (7, 8), (9, 9), (10, 10), (12, 13), (14, 14), (15, 15)])
  , ("KeyInputLowActive", [(0, 0), (1, 1), (2, 2), (3, 3), (4, 4), (5, 5), (6, 6), (7, 7),
      (8, 8), (9, 9)])
  , ("KeyInterruptBits", [(0, 0), (1, 1), (2, 2), (3, 3), (4, 4), (5, 5), (6, 6), (7, 7),
      (8, 8), (9, 9), (14, 14), (15, 15)])
  , ("InterruptFlagBits", [(0, 0), (1, 1), (2, 2), (3, 3), (4, 4), (5, 5), (6, 6), (7, 7),
      (8, 8), (9, 9), (10, 10), (11, 11), (12, 12), (13, 13)])
  , ("WaitControlSetting", [(0, 1), (2, 3), (4, 4), (5, 6), (7, 7), (8, 9), (10, 10),
      (11, 12), (14, 14)])
  ]

/-- Two inclusive bit ranges share a common bit position. -/
def rangesOverlap (r q : Nat × Nat) : Bool := max r.1 q.1 ≤ min r.2 q.2

/-- All ranges in the list are pairwise disjoint. -/
def pairwiseDisjoint : List (Nat × Nat) → Bool
  | [] => true
  | r :: rs => rs.all (fun q => !rangesOverlap r q) && pairwiseDisjoint rs

/-! Helper lemmas: per-bit characterisations of the accessors. -/

/-- Bits of a value below 2 ^ W vanish at positions at or above W. -/
theorem testBit_high (W v i : Nat) (hv : v < 2 ^ W) (hiW : ¬ i < W) : v.testBit i = false :=
  Nat.testBit_lt_two_pow (Nat.lt_of_lt_of_le hv (Nat.pow_le_pow_right (by omega) (by omega)))

/-- Per-bit reading of the masked-XOR merge: inside the mask the new bits win,
outside the mask the old bits survive. -/
theorem testBit_bit_set (a m b i : Nat) :
    (bit_set a m b).testBit i = if m.testBit i then b.testBit i else a.testBit i := by
  simp only [bit_set, Nat.testBit_xor, Nat.testBit_and]
  cases m.testBit i <;> cases a.testBit i <;> cases b.testBit i <;> rfl

/-- Per-bit reading of a single-bit mask. -/
theorem testBit_one_shift (b i : Nat) : ((1 : Nat) <<< b).testBit i = decide (b = i) := by
  have h : (1 : Nat) <<< b = 2 ^ b := by simp [Nat.shiftLeft_eq]
  rw [h, Nat.testBit_two_pow]

/-- Per-bit reading of the field MASK constant: exactly the bits of [s, e]
that also fit in the backing width W. -/
theorem testBit_fieldMask (W s e i : Nat) :
    (fieldMask W s e).testBit i = (decide (i < W) && (decide (s ≤ i) && decide (i ≤ e))) := by
  have h1 : (1 : Nat) <<< (e + 1) = 2 ^ (e + 1) := by simp [Nat.shiftLeft_eq]
  simp only [fieldMask, Nat.testBit_mod_two_pow, Nat.testBit_shiftLeft, Nat.testBit_shiftRight,
    h1, Nat.testBit_two_pow_sub_one, ge_iff_le]
  by_cases hs : s ≤ i
  · have hsi : s + (i - s) = i := by omega
    rw [hsi]
    simp [hs, Nat.lt_succ_iff]
  · simp [hs]

/-- Per-bit reading of the raw-integer setter. -/
theorem testBit_raw_set (W s e v x i : Nat) :
    (raw_set W s e v x).testBit i =
      (decide (i < W) &&
        (if decide (s ≤ i) && decide (i ≤ e) then x.testBit (i - s) else v.testBit i)) := by
  simp only [raw_set, Nat.testBit_mod_two_pow, testBit_bit_set, testBit_fieldMask,
    Nat.testBit_shiftLeft, ge_iff_le]
  by_cases h1 : i < W <;> by_cases h2 : s ≤ i <;> by_cases h3 : i ≤ e <;>
    simp [h1, h2, h3]

/-- Per-bit reading of the newtype'd-integer setter: the argument's bits are
merged at their own positions, clipped to the mask. -/
theorem testBit_nt_set (W s e v x i : Nat) :
    (nt_set W s e v x).testBit i =
      (decide (i < W) &&
        (if decide (s ≤ i) && decide (i ≤ e) then x.testBit i else v.testBit i)) := by
  simp only [nt_set, Nat.testBit_mod_two_pow, testBit_bit_set, testBit_fieldMask]
  by_cases h1 : i < W <;> by_cases h2 : s ≤ i <;> by_cases h3 : i ≤ e <;>
    simp [h1, h2, h3]

/-- Per-bit reading of the boolean setter. -/
theorem testBit_bool_set (W b v i : Nat) (g : Bool) :
    (bool_set W b v g).testBit i =
      (decide (i < W) && (if b = i then g else v.testBit i)) := by
  cases g <;>
    (simp only [bool_set, Nat.testBit_mod_two_pow, testBit_bit_set, testBit_one_shift];
      by_cases h2 : b = i <;> by_cases h1 : i < W <;> simp [h1, h2])

/-- Per-bit reading of the newtype'd-integer getter. -/
theorem testBit_nt_get (W s e v i : Nat) :
    (nt_get W s e v).testBit i =
      (decide (i < W) && (decide (s ≤ i) && decide (i ≤ e)) && v.testBit i) := by
  simp only [nt_get, bit_get, Nat.testBit_mod_two_pow, Nat.testBit_and, testBit_fieldMask]
  by_cases h1 : i < W <;> by_cases h2 : s ≤ i <;> by_cases h3 : i ≤ e <;>
    simp [h1, h2, h3]

/-- Per-bit reading of the raw-integer getter, for a field range inside the
backing width. -/
theorem testBit_raw_get (W s e v i : Nat) (heW : e < W) :
    (raw_get W s e v).testBit i = (decide (s + i ≤ e) && v.testBit (s + i)) := by
  simp only [raw_get, bit_get, Nat.testBit_mod_two_pow, Nat.testBit_shiftRight,
    Nat.testBit_and, testBit_fieldMask]
  by_cases h : s + i ≤ e
  · have h1 : i < W := by omega
    have h2 : s + i < W := by omega
    have h3 : s ≤ s + i := by omega
    simp [h, h1, h2, h3]
  · simp [h]

/-- The getter-after-setter composition for newtype'd fields: the result's
raw integer is the argument's raw integer clipped by the mask. -/
theorem nt_get_nt_set (W s e v x : Nat) :
    nt_get W s e (nt_set W s e v x) = x &&& fieldMask W s e := by
  apply Nat.eq_of_testBit_eq
  intro i
  rw [testBit_nt_get, testBit_nt_set, Nat.testBit_and, testBit_fieldMask]
  by_cases h1 : i < W <;> by_cases h2 : s ≤ i <;> by_cases h3 : i ≤ e <;>
    simp [h1, h2, h3]

/-- Extraction is invariant under another clip by the mask. -/
theorem nt_get_and_mask (W s e w : Nat) :
    nt_get W s e w &&& fieldMask W s e = nt_get W s e w := by
  apply Nat.eq_of_testBit_eq
  intro i
  rw [Nat.testBit_and, testBit_nt_get, testBit_fieldMask]
  by_cases h1 : i < W <;> by_cases h2 : s ≤ i <;> by_cases h3 : i ≤ e <;>
    simp [h1, h2, h3]

/-- One merge-then-merge with the same contribution collapses to one merge. -/
theorem bit_set_mod_idem (W m bv v : Nat) :
    bit_set (bit_set v m bv % 2 ^ W) m bv % 2 ^ W = bit_set v m bv % 2 ^ W := by
  apply Nat.eq_of_testBit_eq
  intro i
  simp only [Nat.testBit_mod_two_pow, testBit_bit_set]
  by_cases hm : m.testBit i <;> by_cases hw : i < W <;> simp [hm, hw]

/-! Claim theorems. -/

/-- Claim C1 (refuted; code evaluated at the failing input): the round-trip
law set-then-get fails on the code for the symbolic fields of
DmaControlSetting.  Starting from a zero register, setting start_timing to
DmaStartTiming::Vblank (raw 1) and reading it back yields
DmaStartTiming::Immediate (raw 0), not Vblank, because the setter merges
the raw integer unshifted and Vblank's raw value 1 lies outside the field
mask of bits 12-13; likewise set_src_addr_control with Decrement reads
back as Increment.  Every other const_enum in the crate pre-shifts its
constants into field position, so these unshifted DMA constants are a slip
in the register catalog, and the spec's round-trip law is the intent. -/
theorem c1_start_timing_roundtrip_fails :
    DmaControlSetting.start_timing
        (DmaControlSetting.set_start_timing 0 DmaStartTiming.Vblank) = DmaStartTiming.Immediate
    ∧ DmaStartTiming.Vblank ≠ DmaStartTiming.Immediate
    ∧ DmaControlSetting.src_addr_control
        (DmaControlSetting.set_src_addr_control 0 DmaSourceAddressControl.Decrement)
        = DmaSourceAddressControl.Increment
    ∧ DmaSourceAddressControl.Decrement ≠ DmaSourceAddressControl.Increment := by
  decide

/-- Claim C2 (confirmed): every setter kind leaves every bit outside its
field range [s, e] (outside bit b for a boolean field) identical to the
starting register value v, for any argument. -/
theorem c2_setters_frame (W s e b v x i : Nat) (g : Bool) (hv : v < 2 ^ W) :
    ((i < s ∨ e < i) →
        (raw_set W s e v x).testBit i = v.testBit i
        ∧ (nt_set W s e v x).testBit i = v.testBit i)
    ∧ (i ≠ b → (bool_set W b v g).testBit i = v.testBit i) := by
  constructor
  · intro hout
    have hm : (decide (s ≤ i) && decide (i ≤ e)) = false := by
      rcases hout with h | h
      · have hd : decide (s ≤ i) = false := decide_eq_false (by omega)
        simp [hd]
      · have hd : decide (i ≤ e) = false := decide_eq_false (by omega)
        simp [hd]
    constructor
    · rw [testBit_raw_set, hm]
      by_cases h1 : i < W
      · simp [h1]
      · simp [h1, testBit_high W v i hv h1]
    · rw [testBit_nt_set, hm]
      by_cases h1 : i < W
      · simp [h1]
      · simp [h1, testBit_high W v i hv h1]
  · intro hib
    rw [testBit_bool_set]
    have hbi : ¬ b = i := fun h => hib h.symm
    by_cases h1 : i < W
    · simp [h1, hbi]
    · simp [h1, hbi, testBit_high W v i hv h1]

/-- Witness for claim C2 at a concrete input: an all-ones 16-bit register,
a raw field at bits [4, 7] set to 0, a boolean field at bit 2 cleared;
bit 3 is untouched by all of them. -/
theorem c2_setters_frame_w :
    (raw_set 16 4 7 0xFFFF 0).testBit 3 = (0xFFFF : Nat).testBit 3
    ∧ (nt_set 16 4 7 0xFFFF 0).testBit 3 = (0xFFFF : Nat).testBit 3
    ∧ (bool_set 16 2 0xFFFF false).testBit 3 = (0xFFFF : Nat).testBit 3 :=
  ⟨((c2_setters_frame 16 4 7 2 0xFFFF 0 3 false (by decide)).1 (by decide)).1,
   ((c2_setters_frame 16 4 7 2 0xFFFF 0 3 false (by decide)).1 (by decide)).2,
   (c2_setters_frame 16 4 7 2 0xFFFF 0 3 false (by decide)).2 (by decide)⟩

/-- Claim C3 counterexample: the symbolic getter is not right-aligned.  For
the ColorBlendControlSetting backing 64 (only bit 6 set), the code's getter
returns the raw integer 64 — the field bits left at their position, equal to
the pre-shifted constant BlendEffect::AlphaBlend — while the spec's
right-aligned extraction (backing AND mask) >> s yields 1. -/
theorem c3_nt_get_not_right_aligned :
    ColorBlendControlSetting.blend_effect 64 = BlendEffect.AlphaBlend
    ∧ BlendEffect.AlphaBlend = 64
    ∧ nt_get_rightAligned_spec 16 6 7 64 = 1
    ∧ ColorBlendControlSetting.blend_effect 64 ≠ nt_get_rightAligned_spec 16 6 7 64 := by
  decide

/-- Claim C3 (amended): the symbolic getter extracts (backing AND mask)
without shifting right; the raw integer inside the returned symbolic value is
the raw-integer getter's right-aligned result shifted back left by s, i.e. it
sits at its bit position within the parent register, and the named constants
are pre-shifted to match. -/
theorem c3_nt_get_unshifted (W s e v : Nat) (hse : s ≤ e) (heW : e < W) :
    nt_get W s e v = raw_get W s e v <<< s := by
  apply Nat.eq_of_testBit_eq
  intro i
  rw [testBit_nt_get, Nat.testBit_shiftLeft, testBit_raw_get W s e v (i - s) heW]
  by_cases h2 : s ≤ i
  · have hsi : s + (i - s) = i := by omega
    rw [hsi]
    by_cases h3 : i ≤ e
    · have h1 : i < W := by omega
      simp [h1, h2, h3]
    · simp [h2, h3]
  · simp [h2]

/-- Witness for the amended claim C3 at the BlendEffect field of
ColorBlendControlSetting, backing 64. -/
theorem c3_nt_get_unshifted_w :
    nt_get 16 6 7 64 = raw_get 16 6 7 64 <<< 6 :=
  c3_nt_get_unshifted 16 6 7 64 (by decide) (by decide)

/-- Claim C4 counterexample: the field ranges of ObjAttr1 are not pairwise
disjoint — affine_param spans bits [9, 13] and contains bit 12 of
horizontal_flip and bit 13 of vertical_flip. -/
theorem c4_objAttr1_fields_overlap :
    ("ObjAttr1", objAttr1Fields) ∈ registerCatalog
    ∧ pairwiseDisjoint objAttr1Fields = false
    ∧ (9, 13) ∈ objAttr1Fields ∧ (12, 12) ∈ objAttr1Fields
    ∧ rangesOverlap (9, 13) (12, 12) = true := by
  decide

/-- Claim C4 (amended): the declared field ranges are pairwise disjoint for
every register type in the crate except ObjAttr1, whose affine_param range
[9, 13] deliberately shares bit 12 with horizontal_flip and bit 13 with
vertical_flip (the hardware reuses those bits depending on the object's
display mode). -/
theorem c4_fields_disjoint_except_objAttr1 (p : String × List (Nat × Nat))
    (hp : p ∈ registerCatalog) (hne : p.1 ≠ "ObjAttr1") :
    pairwiseDisjoint p.2 = true := by
  fin_cases hp <;> first | rfl | exact absurd rfl hne

/-- Witness for the amended claim C4 at the DisplayControlSetting entry of
the register catalog. -/
theorem c4_fields_disjoint_except_objAttr1_w :
    pairwiseDisjoint [(0, 2), (4, 4), (5, 5), (6, 6), (7, 7), (8, 8), (9, 9),
      (10, 10), (11, 11), (12, 12), (13, 13), (14, 14), (15, 15)] = true :=
  c4_fields_disjoint_except_objAttr1
    ("DisplayControlSetting", [(0, 2), (4, 4), (5, 5), (6, 6), (7, 7), (8, 8), (9, 9),
      (10, 10), (11, 11), (12, 12), (13, 13), (14, 14), (15, 15)])
    (by decide) (by decide)

/-- Claim C5 (confirmed): for s ≤ e < W (with W at most the 64-bit width the
source computes masks in), the MASK constant equals
((1 << (e - s + 1)) - 1) << s, and for the 1-bit field at bit 15 of a 16-bit
register it equals 0b1000000000000000 without overflow or wrap-around. -/
theorem c5_fieldMask_formula (W s e : Nat) (hse : s ≤ e) (heW : e < W) (hW : W ≤ 64) :
    fieldMask W s e = ((1 <<< (e - s + 1)) - 1) <<< s
    ∧ fieldMask 16 15 15 = 0b1000000000000000 := by
  constructor
  · apply Nat.eq_of_testBit_eq
    intro i
    have h1 : (1 : Nat) <<< (e - s + 1) = 2 ^ (e - s + 1) := by simp [Nat.shiftLeft_eq]
    rw [testBit_fieldMask]
    simp only [Nat.testBit_shiftLeft, h1, Nat.testBit_two_pow_sub_one, ge_iff_le]
    by_cases h2 : s ≤ i <;> by_cases h3 : i ≤ e <;> by_cases h5 : i < W <;>
      by_cases h4 : i - s < e - s + 1 <;> simp [h2, h3, h5, h4] <;> omega
  · decide

/-- Witness for claim C5 at the 1-bit field at bit 15 of a 16-bit register. -/
theorem c5_fieldMask_formula_w :
    fieldMask 16 15 15 = ((1 <<< (15 - 15 + 1)) - 1) <<< 15
    ∧ fieldMask 16 15 15 = 0b1000000000000000 :=
  c5_fieldMask_formula 16 15 15 (by decide) (by decide) (by decide)

/-- Claim C6 (confirmed): for backing words and mask below the operating
width, the masked-XOR merge a XOR ((a XOR b) AND m) of bit_set! is
bit-for-bit the clear-then-OR form (a AND NOT m) OR (b AND m), with NOT m
the complement within that width. -/
theorem c6_bit_set_eq_clear_then_or (w a b m : Nat) (ha : a < 2 ^ w) (hb : b < 2 ^ w)
    (hm : m < 2 ^ w) :
    bit_set a m b = (a &&& ((2 ^ w - 1) ^^^ m)) ||| (b &&& m) := by
  apply Nat.eq_of_testBit_eq
  intro i
  simp only [testBit_bit_set, Nat.testBit_and, Nat.testBit_or, Nat.testBit_xor,
    Nat.testBit_two_pow_sub_one]
  by_cases hw : i < w
  · by_cases hmi : m.testBit i <;> simp [hmi, hw]
  · simp [testBit_high w a i ha hw, testBit_high w b i hb hw, testBit_high w m i hm hw, hw]

/-- Witness for claim C6 on 16-bit words. -/
theorem c6_bit_set_eq_clear_then_or_w :
    bit_set 0xF0F0 0x0FF0 0x1234 = ((0xF0F0 &&& ((2 ^ 16 - 1) ^^^ 0x0FF0)) ||| (0x1234 &&& 0x0FF0)) :=
  c6_bit_set_eq_clear_then_or 16 0xF0F0 0x1234 0x0FF0 (by decide) (by decide) (by decide)

/-- Claim C7 (confirmed): extracting a symbolic field is a total function
(nt_get never fails by construction); if the decoded value compares unequal
(structurally, on the raw backing integers) to every named constant of the
type, then re-encoding it with the field's setter and decoding again yields
exactly the same value, which therefore still compares unequal to every
named constant. -/
theorem c7_symbolic_unmatched_roundtrip (W s e : Nat) (cs : List Nat) (v w : Nat)
    (hnm : ∀ c ∈ cs, nt_get W s e w ≠ c) :
    nt_get W s e (nt_set W s e v (nt_get W s e w)) = nt_get W s e w
    ∧ ∀ c ∈ cs, nt_get W s e (nt_set W s e v (nt_get W s e w)) ≠ c := by
  have h : nt_get W s e (nt_set W s e v (nt_get W s e w)) = nt_get W s e w := by
    rw [nt_get_nt_set, nt_get_and_mask]
  exact ⟨h, fun c hc => by rw [h]; exact hnm c hc⟩

/-- Witness for claim C7 at the WaveVolume field of WaveVolumeSetting:
backing 160 has field bits 0b101, which matches none of the five named
WaveVolume constants. -/
theorem c7_symbolic_unmatched_roundtrip_w :
    (∀ c ∈ WaveVolume.constants, WaveVolumeSetting.volume 160 ≠ c)
    ∧ nt_get 8 5 7 (nt_set 8 5 7 0 (nt_get 8 5 7 160)) = nt_get 8 5 7 160
    ∧ ∀ c ∈ WaveVolume.constants, nt_get 8 5 7 (nt_set 8 5 7 0 (nt_get 8 5 7 160)) ≠ c :=
  ⟨by decide,
   (c7_symbolic_unmatched_roundtrip 8 5 7 WaveVolume.constants 0 160 (by decide)).1,
   (c7_symbolic_unmatched_roundtrip 8 5 7 WaveVolume.constants 0 160 (by decide)).2⟩

/-- Claim C8 (confirmed): for a raw-integer field over [s, e], an argument
wider than the field has its excess high bits silently discarded by the
mask: the setter's result equals the setter applied to x mod 2^(e-s+1), and
reading the field back after the set yields x mod 2^(e-s+1). -/
theorem c8_raw_set_oversized (W s e v x : Nat) (hse : s ≤ e) (heW : e < W) :
    raw_set W s e v x = raw_set W s e v (x % 2 ^ (e - s + 1))
    ∧ raw_get W s e (raw_set W s e v x) = x % 2 ^ (e - s + 1) := by
  constructor
  · apply Nat.eq_of_testBit_eq
    intro i
    rw [testBit_raw_set, testBit_raw_set]
    by_cases h2 : s ≤ i
    · by_cases h3 : i ≤ e
      · have h4 : i - s < e - s + 1 := by omega
        simp [h2, h3, h4, Nat.testBit_mod_two_pow]
      · simp [h2, h3]
    · simp [h2]
  · apply Nat.eq_of_testBit_eq
    intro i
    rw [testBit_raw_get W s e _ i heW, testBit_raw_set, Nat.testBit_mod_two_pow]
    by_cases h : s + i ≤ e
    · have h1 : s + i < W := by omega
      have h2 : s ≤ s + i := by omega
      have h5 : s + i - s = i := by omega
      have h4 : i < e - s + 1 := by omega
      simp [h, h1, h2, h5, h4]
    · have h4 : ¬ i < e - s + 1 := by omega
      simp [h, h4]

/-- Witness for claim C8: an 8-bit oversized argument 0xFF written to the
4-bit field [4, 7] of a 16-bit register. -/
theorem c8_raw_set_oversized_w :
    raw_set 16 4 7 0 0xFF = raw_set 16 4 7 0 (0xFF % 2 ^ (7 - 4 + 1))
    ∧ raw_get 16 4 7 (raw_set 16 4 7 0 0xFF) = 0xFF % 2 ^ (7 - 4 + 1) :=
  c8_raw_set_oversized 16 4 7 0 0xFF (by decide) (by decide)

/-- Claim C9 (confirmed): every setter kind is idempotent — applying it twice
with the same argument produces the same backing integer as applying it
once. -/
theorem c9_setters_idempotent (W s e b v x : Nat) (g : Bool) :
    raw_set W s e (raw_set W s e v x) x = raw_set W s e v x
    ∧ nt_set W s e (nt_set W s e v x) x = nt_set W s e v x
    ∧ bool_set W b (bool_set W b v g) g = bool_set W b v g :=
  ⟨bit_set_mod_idem W (fieldMask W s e) ((x <<< s) % 2 ^ W) v,
   bit_set_mod_idem W (fieldMask W s e) x v,
   bit_set_mod_idem W (1 <<< b) ((if g then 1 else 0) <<< b) v⟩

/-- Claim C10 (confirmed): the newtype'd setter merges its argument's raw
integer unshifted and clipped by the mask, so the getter after the setter
returns the raw integer AND mask; in particular on DmaControlSetting,
setting start_timing to any of Vblank, Hblank or Special (raw 1, 2, 3 —
all below the field's bits 12-13) reads back as Immediate, and setting
src_addr_control to Decrement or Fixed reads back as Increment. -/
theorem c10_nt_setter_unshifted_masked_merge :
    (∀ W s e v x, nt_get W s e (nt_set W s e v x) = x &&& fieldMask W s e)
    ∧ (∀ v,
        DmaControlSetting.start_timing
            (DmaControlSetting.set_start_timing v DmaStartTiming.Vblank)
          = DmaStartTiming.Immediate
        ∧ DmaControlSetting.start_timing
            (DmaControlSetting.set_start_timing v DmaStartTiming.Hblank)
          = DmaStartTiming.Immediate
        ∧ DmaControlSetting.start_timing
            (DmaControlSetting.set_start_timing v DmaStartTiming.Special)
          = DmaStartTiming.Immediate
        ∧ DmaControlSetting.src_addr_control
            (DmaControlSetting.set_src_addr_control v DmaSourceAddressControl.Decrement)
          = DmaSourceAddressControl.Increment
        ∧ DmaControlSetting.src_addr_control
            (DmaControlSetting.set_src_addr_control v DmaSourceAddressControl.Fixed)
          = DmaSourceAddressControl.Increment) := by
  refine ⟨nt_get_nt_set, fun v => ⟨?_, ?_, ?_, ?_, ?_⟩⟩ <;>
    (simp only [DmaControlSetting.start_timing, DmaControlSetting.set_start_timing,
      DmaControlSetting.src_addr_control, DmaControlSetting.set_src_addr_control,
      nt_get_nt_set]; decide)
